import Mathlib

/-!
Verification of the NeXOS A2 hydrophone client (`nexosA2/nexos.py`):
the command/set-verify protocol, parameter validation, transport
initialization, the streaming capture loop with RTP sequence-gap
detection, and the cached device configuration.

The Python class `NeXOS` is embedded shallowly: each method becomes a
pure Lean function over an explicit state, the serial/UDP transport pair
`send`/`recv` is collapsed into a pure map from the command text to the
device's raw response text, and every wire frame actually sent is
collected in a trace list so that "before any I/O" claims are statable.
-/

set_option autoImplicit false

namespace A2

/-- Error kinds surfaced by the client. In the Python source these are
`ValueError` (serial already configured; set-verify mismatch; `int()` on
a non-integer response) and `AssertionError` (parameter outside its
enumerated valid set); the names follow the spec's error taxonomy. -/
inductive NxError where
  | configurationError
  | invalidParameter
  | verificationMismatch
  | parseError
  deriving DecidableEq, Repr

/-- Equality of `Except` results is decidable when it is on both sides;
used to evaluate the client's results on concrete devices. -/
instance {ε α : Type} [DecidableEq ε] [DecidableEq α] : DecidableEq (Except ε α) := fun x y =>
  match x, y with
  | Except.error a, Except.error b =>
    if h : a = b then Decidable.isTrue (by rw [h]) else Decidable.isFalse (by simp [h])
  | Except.error _, Except.ok _ => Decidable.isFalse (by simp)
  | Except.ok _, Except.error _ => Decidable.isFalse (by simp)
  | Except.ok a, Except.ok b =>
    if h : a = b then Decidable.isTrue (by rw [h]) else Decidable.isFalse (by simp [h])

/-- The frame terminator appended by `send` and stripped by the receive
loops before a response is returned. -/
def crlf : String := "\r\n"

/-- The double-quote character (codepoint 34) that `query` strips from
responses and `set` uses to enclose values. -/
def quoteChar : Char := Char.ofNat 34

/-- `r.replace` of the double quote by the empty string, as done at the
end of `NeXOS.query`: every occurrence is removed. -/
def stripQuotes (s : String) : String :=
  String.mk (s.data.filter (fun c => c ≠ quoteChar))

/-- A responding device: the transport `send`/`recv` pair collapsed to a
pure map from the sent command text (terminator excluded) to the raw
response text (the receive loops already strip the terminator). -/
abbrev Device := String → String

/-- `NeXOS.query(command)`: sends the command (the `send` wrapper
appends the terminator), receives the reply and strips double quotes.
The result is paired with the list of wire frames sent. -/
def NeXOS.query (dev : Device) (command : String) : String × List String :=
  (stripQuotes (dev command), [command ++ crlf])

/-- `NeXOS.set(param, value, enclose)`: formats `param value` (the value
enclosed in double quotes when `enclose` is set), sends it, sleeps a
fixed 0.2 s settle interval, queries `param?` back and compares the
echoed string with the requested value; a mismatch raises `ValueError`
("could not set param …"), i.e. VerificationMismatch. The trace records
the set frame followed by the verification query frame. -/
def NeXOS.set (dev : Device) (param value : String) (enclose : Bool) :
    Except NxError Unit × List String :=
  let cmd :=
    if enclose then
      param ++ " " ++ String.singleton quoteChar ++ value ++ String.singleton quoteChar
    else
      param ++ " " ++ value
  let q := NeXOS.query dev (param ++ "?")
  ((if q.1 ≠ value then Except.error NxError.verificationMismatch else Except.ok ()),
    (cmd ++ crlf) :: q.2)

/-- Python's `int(...)` applied to a decimal response string: an
optional minus sign (codepoint 45) followed by at least one digit;
anything else raises `ValueError`, modelled as `none`. -/
def digitsToNat (cs : List Char) : Option Nat :=
  if cs ≠ [] ∧ cs.all Char.isDigit then
    some (cs.foldl (fun n c => n * 10 + (c.toNat - 48)) 0)
  else none

/-- See `digitsToNat`: the signed integer parse used by `get_srate` and
`get_channel`. -/
def pyInt (s : String) : Option Int :=
  match s.data with
  | [] => none
  | c :: rest =>
    if c = Char.ofNat 45 then (digitsToNat rest).map (fun n => -(n : Int))
    else (digitsToNat s.data).map (fun n => (n : Int))

/-- The `__valid_srates` list of `NeXOS.set_srate`. -/
def validSrates : List Int := [100000, 50000, 200000]

/-- `NeXOS.set_srate(srate)`: asserts membership in `__valid_srates`
before calling `set` (so an invalid rate fails with an empty trace:
zero frames sent), then sets `CONFigure:ACQuire:SRATe`. -/
def NeXOS.set_srate (dev : Device) (srate : Int) : Except NxError Unit × List String :=
  if srate ∈ validSrates then
    NeXOS.set dev "CONFigure:ACQuire:SRATe" (toString srate) false
  else (Except.error NxError.invalidParameter, [])

/-- `NeXOS.set_channel(ch)`: asserts `ch in [1, 2]` before any I/O, then
sets `INPut<ch>:STATe` to 1. -/
def NeXOS.set_channel (dev : Device) (ch : Int) : Except NxError Unit × List String :=
  if ch ∈ ([1, 2] : List Int) then
    NeXOS.set dev ("INPut" ++ toString ch ++ ":STATe") "1" false
  else (Except.error NxError.invalidParameter, [])

/-- `NeXOS.get_channel()`: queries `INPut1:STATe?`, parses the response
with `int(...)`; returns 1 when the parsed integer equals 1 and 2
otherwise. -/
def NeXOS.get_channel (dev : Device) : Except NxError Int × List String :=
  let q := NeXOS.query dev "INPut1:STATe?"
  match pyInt q.1 with
  | none => (Except.error NxError.parseError, q.2)
  | some r => (Except.ok (if r = 1 then (1 : Int) else 2), q.2)

/-- `NeXOS.get_srate()`: queries `CONFigure:ACQuire:SRATe?` and parses
the response with `int(...)`. -/
def NeXOS.get_srate (dev : Device) : Except NxError Int × List String :=
  let q := NeXOS.query dev "CONFigure:ACQuire:SRATe?"
  match pyInt q.1 with
  | none => (Except.error NxError.parseError, q.2)
  | some r => (Except.ok r, q.2)

/-- `NeXOS.get_gain()`: the raw string answer to `INPut1:GAIN:STATe?`. -/
def NeXOS.get_gain (dev : Device) : String × List String :=
  NeXOS.query dev "INPut1:GAIN:STATe?"

/-- `NeXOS.get_equalizer()`: the raw string answer to
`INPut1:EQUalizer:STATe?`. -/
def NeXOS.get_equalizer (dev : Device) : String × List String :=
  NeXOS.query dev "INPut1:EQUalizer:STATe?"

/-- The transport-selection part of the `NeXOS` instance state:
`self.interface` (None / "serial" / "udp"), whether `self.serial` holds
a serial handle, and whether `self.socket` holds a UDP command socket
(both are None after `__init__`). -/
structure TransportState where
  interface : Option String
  serial : Bool
  socket : Bool
  deriving DecidableEq, Repr

/-- The transport fields as set by `NeXOS.__init__`. -/
def initTransport : TransportState := { interface := none, serial := false, socket := false }

/-- `NeXOS.init_serial(device)`: raises `ValueError` ("Serial already
configured!") when a serial handle already exists; otherwise opens the
serial port and, when no interface is selected yet, selects "serial". -/
def NeXOS.init_serial (st : TransportState) : Except NxError TransportState :=
  if st.serial then Except.error NxError.configurationError
  else
    let st1 : TransportState := { st with serial := true }
    Except.ok (if st1.interface = none then { st1 with interface := some "serial" } else st1)

/-- `NeXOS.init_udp(ip_addr, port)`: performs no already-configured
check at all — it unconditionally creates a (new) UDP socket, sends the
identity probe, and, when no interface is selected yet, selects "udp".
It never raises a configuration error. -/
def NeXOS.init_udp (st : TransportState) : TransportState :=
  let st1 : TransportState := { st with socket := true }
  if st1.interface = none then { st1 with interface := some "udp" } else st1

/-- The stream-socket part of the `NeXOS` instance state: whether
`self.stream_socket` holds a bound socket, and the
`self.open_stream_port` flag (False after `__init__`). -/
structure StreamState where
  stream_socket : Bool
  open_stream_port : Bool
  deriving DecidableEq, Repr

/-- `NeXOS.open_stream(port)`: unconditionally creates a fresh UDP
socket, binds it to the port and sets `open_stream_port = True`. There
is no already-open guard of any kind in the method body. -/
def NeXOS.open_stream (_st : StreamState) : StreamState :=
  { stream_socket := true, open_stream_port := true }

/-- `NeXOS.close_stream()`: closes the stream socket and clears the
`open_stream_port` flag. -/
def NeXOS.close_stream (_st : StreamState) : StreamState :=
  { stream_socket := false, open_stream_port := false }

/-- The guard at the top of `NeXOS.write_wav`: the stream socket is
opened only when `open_stream_port == False`. -/
def write_wav_stream (st : StreamState) : StreamState :=
  if st.open_stream_port = false then NeXOS.open_stream st else st

/-- `self.packetSize` from `__init__`. -/
def packetSize : Nat := 1036

/-- `self.samplesPerPacket` from `__init__`. -/
def samplesPerPacket : Nat := 512

/-- `self.streaming_port` from `__init__` ("4002 by default"). -/
def streaming_port : Int := 4002

/-- The static helper `bytes_to_int(bytes)` of the class; the same
big-endian accumulation as `int.from_bytes(…, byteorder='big')` used on
the two sequence-number bytes. -/
def bytes_to_int (bytes : List Nat) : Nat :=
  bytes.foldl (fun result b => result * 256 + b) 0

/-- The RTP-header part of the `NeXOS` instance state. `newSeqNum` and
`oldSeqNum` are the integer sequence-number pair (both `-1` after
`__init__`, the sentinel meaning "no packet received yet");
`rtpVersion` and `rtpPayloadType` are the first two header bytes;
`rtpSeqNum`, `rtpTimestampNs` and `rtpTimestampS` hold the raw byte
slices the method stores (initially the `-1` placeholder in Python,
modelled as the empty slice). -/
structure RtpState where
  newSeqNum : Int
  oldSeqNum : Int
  rtpVersion : Int
  rtpPayloadType : Int
  rtpSeqNum : List Nat
  rtpTimestampNs : List Nat
  rtpTimestampS : List Nat
  deriving DecidableEq, Repr

/-- The RTP fields as set by `NeXOS.__init__`. -/
def initRtp : RtpState :=
  { newSeqNum := -1, oldSeqNum := -1, rtpVersion := -1, rtpPayloadType := -1,
    rtpSeqNum := [], rtpTimestampNs := [], rtpTimestampS := [] }

/-- `NeXOS.receivePacket()` on one received datagram `rawdata` (a byte
list): parses the 12-byte header (`rawdata[2:4]` are the sequence-number
bytes, big-endian), shifts `newSeqNum` into `oldSeqNum`, sets
`newSeqNum` from the wire, and — when the shifted `oldSeqNum` is still
the `-1` sentinel — rewrites it to `newSeqNum - 1`. Returns the updated
state and the payload `rawdata[12:]`. -/
def NeXOS.receivePacket (st : RtpState) (rawdata : List Nat) : RtpState × List Nat :=
  let rtpSeqNum := (rawdata.drop 2).take 2
  let st1 : RtpState :=
    { rtpVersion := (rawdata.getD 0 0 : Nat),
      rtpPayloadType := (rawdata.getD 1 0 : Nat),
      rtpSeqNum := rtpSeqNum,
      rtpTimestampNs := (rawdata.drop 4).take 4,
      rtpTimestampS := (rawdata.drop 8).take 4,
      oldSeqNum := st.newSeqNum,
      newSeqNum := (bytes_to_int rtpSeqNum : Nat) }
  let st2 := if st1.oldSeqNum = -1 then { st1 with oldSeqNum := st1.newSeqNum - 1 } else st1
  (st2, rawdata.drop 12)

/-- `seqGap = self.newSeqNum - self.oldSeqNum`, as computed in the
`write_wav` receive loop: a plain integer subtraction, with no modular
reduction. -/
def seqGap (st : RtpState) : Int := st.newSeqNum - st.oldSeqNum

/-- The loss message of the `write_wav` loop body: when `seqGap > 1` it
logs "Lost: <seqGap> packets" (the raw gap value); otherwise nothing. -/
def lostReport (st : RtpState) : Option Int :=
  if seqGap st > 1 then some (seqGap st) else none

/-- `npackets = int(seconds * self.srate / self.samplesPerPacket)`: the
float quotient truncated toward zero; for natural inputs (and products
below 2^53, where the double holds the product exactly and division by
the power of two 512 is exact) this is the floor, i.e. natural
division. -/
def npackets (seconds srate : Nat) : Nat := seconds * srate / samplesPerPacket

/-- The `write_wav` receive loop, `n` iterations remaining, fed by the
stream `packets` (packet `i` is the `i`-th datagram received): each
iteration receives one packet, appends its payload to the WAV file
(collected here in a list), increments the written count, and computes
`seqGap`, logging a loss message when it exceeds 1 (losses collected in
the third component). The loop never exits early: a gap only logs. -/
def writeLoop (packets : Nat → List Nat) : RtpState → Nat → Nat →
    RtpState × List (List Nat) × List Int
  | st, _, 0 => (st, [], [])
  | st, i, n + 1 =>
    let pr := NeXOS.receivePacket st (packets i)
    let rest := writeLoop packets pr.1 (i + 1) (n)
    (rest.1, pr.2 :: rest.2.1,
      match lostReport pr.1 with
      | some g => g :: rest.2.2
      | none => rest.2.2)

/-- `NeXOS.write_wav(seconds, …)` restricted to its capture loop: runs
`writeLoop` for `npackets seconds srate` iterations from the current
RTP state (`srate` is the cached active sample rate). -/
def write_wav_payloads (seconds srate : Nat) (st : RtpState) (packets : Nat → List Nat) :
    RtpState × List (List Nat) × List Int :=
  writeLoop packets st 0 (npackets seconds srate)

/-- The configuration dict built at the end of `NeXOS.get_config`. -/
structure Config where
  name : String
  version : String
  channel : Int
  srate : Int
  gain : String
  equalizer : String
  deriving DecidableEq, Repr

/-- The cached-configuration part of the `NeXOS` instance state:
`self.ch`, `self.srate`, `self.gain_status`, `self.eq_status` and the
`self.config_info` dict. The two status fields hold strings once
assigned ("na" or a raw query answer); their Python `-1` integer
sentinel from `__init__` is rendered as the string "-1". An empty
`config_info` dict is `none`. -/
structure ConfigCache where
  ch : Int
  srate : Int
  gain_status : String
  eq_status : String
  config_info : Option Config
  deriving DecidableEq, Repr

/-- The configuration fields as set by `NeXOS.__init__`. -/
def initCache : ConfigCache :=
  { ch := -1, srate := -1, gain_status := "-1", eq_status := "-1", config_info := none }

/-- `NeXOS.get_config()`: reads the channel (mutating `self.ch`), then —
only when the channel is 1 — the equalizer and gain statuses (mutating
those fields; otherwise both are set to "na"), then the sample rate
(mutating `self.srate`), then queries identity and version and stores
the assembled dict into `self.config_info`. A `ValueError` raised by an
`int(...)` parse propagates, leaving the fields mutated so far in place;
the pair returned is the instance state at that point together with the
result (and the trace of frames sent). -/
def NeXOS.get_config (dev : Device) (st : ConfigCache) :
    ConfigCache × Except NxError Config × List String :=
  match NeXOS.get_channel dev with
  | (Except.error e, t) => (st, Except.error e, t)
  | (Except.ok ch, t1) =>
    let st1 : ConfigCache := { st with ch := ch }
    let step2 : ConfigCache × List String :=
      if ch = 1 then
        let e := NeXOS.get_equalizer dev
        let g := NeXOS.get_gain dev
        ({ st1 with eq_status := e.1, gain_status := g.1 }, e.2 ++ g.2)
      else ({ st1 with eq_status := "na", gain_status := "na" }, [])
    let st2 := step2.1
    match NeXOS.get_srate dev with
    | (Except.error e, t3) => (st2, Except.error e, t1 ++ step2.2 ++ t3)
    | (Except.ok sr, t3) =>
      let st3 : ConfigCache := { st2 with srate := sr }
      let idn := NeXOS.query dev "*idn?"
      let ver := NeXOS.query dev "SYSTem:VERSion?"
      let config : Config :=
        { name := idn.1, version := ver.1, channel := st3.ch, srate := st3.srate,
          gain := st3.gain_status, equalizer := st3.eq_status }
      ({ st3 with config_info := some config }, Except.ok config,
        t1 ++ step2.2 ++ t3 ++ idn.2 ++ ver.2)

/-- `NeXOS.set_recv_port(port)`: sets `SYSTem:COMMunicate:LAN:RPORT`
(unquoted integer value). -/
def NeXOS.set_recv_port (dev : Device) (port : Int) : Except NxError Unit × List String :=
  NeXOS.set dev "SYSTem:COMMunicate:LAN:RPORT" (toString port) false

/-- `NeXOS.start_streaming()`: sets the receiver port to
`self.streaming_port`, reloads the configuration with `get_config`, and
sets `CONFigure:STATe` to `RUN_CONTINUOUS` — in that order, each step
only reached when the previous one did not raise. -/
def NeXOS.start_streaming (dev : Device) (st : ConfigCache) :
    ConfigCache × Except NxError Unit × List String :=
  let r1 := NeXOS.set_recv_port dev streaming_port
  match r1.1 with
  | Except.error e => (st, Except.error e, r1.2)
  | Except.ok _ =>
    let gc := NeXOS.get_config dev st
    match gc.2.1 with
    | Except.error e => (gc.1, Except.error e, r1.2 ++ gc.2.2)
    | Except.ok _ =>
      let r3 := NeXOS.set dev "CONFigure:STATe" "RUN_CONTINUOUS" false
      (gc.1, r3.1, r1.2 ++ gc.2.2 ++ r3.2)

/-- `NeXOS.stop_streaming()`: the single call
`set("CONFigure:STATe", "STOP", enclose=False)` and nothing else. -/
def NeXOS.stop_streaming (dev : Device) : Except NxError Unit × List String :=
  NeXOS.set dev "CONFigure:STATe" "STOP" false

/-! ## Concrete devices used to instantiate the theorems -/

/-- A device that answers every command with the empty string. -/
def devNull : Device := fun _ => ""

/-- A device that echoes every parameter faithfully: channel 1, sample
rate 100000, gain and equalizer on, receiver port 4002, run state
RUN_CONTINUOUS. -/
def devEcho : Device := fun cmd =>
  if cmd = "SYSTem:COMMunicate:LAN:RPORT?" then "4002"
  else if cmd = "INPut1:STATe?" then "1"
  else if cmd = "INPut1:EQUalizer:STATe?" then "1"
  else if cmd = "INPut1:GAIN:STATe?" then "1"
  else if cmd = "CONFigure:ACQuire:SRATe?" then "100000"
  else if cmd = "CONFigure:STATe?" then "RUN_CONTINUOUS"
  else if cmd = "*idn?" then "NeXOS-A2"
  else "1.0"

/-- A device whose sample-rate answer is not an integer, so that the
`int(...)` parse inside `get_srate` raises partway through
`get_config`. -/
def devBadSrate : Device := fun cmd =>
  if cmd = "INPut1:STATe?" then "1"
  else if cmd = "INPut1:EQUalizer:STATe?" then "0"
  else if cmd = "INPut1:GAIN:STATe?" then "1"
  else if cmd = "CONFigure:ACQuire:SRATe?" then "oops"
  else ""

/-- A device that answers "2" to every command. -/
def devTwo : Device := fun _ => "2"

/-! ## Helper lemmas -/

/-- The capture loop writes exactly one payload per iteration: `n`
iterations append `n` payloads, whatever the packet contents and
whatever gaps occur. -/
theorem writeLoop_payload_length (packets : Nat → List Nat) :
    ∀ (n i : Nat) (st : RtpState), ((writeLoop packets st i n).2.1).length = n := by
  intro n
  induction n with
  | zero => intro i st; rfl
  | succ n ih => intro i st; simp [writeLoop, ih]

/-! ## Claims -/

/-- Claim C2: for every `set(param, value)`, after sending the command
the parameter is queried back; the operation succeeds exactly when the
echoed (quote-stripped) string equals the requested value, and
otherwise fails with VerificationMismatch — never silently, never
retried (the trace is exactly one set frame and one query frame). -/
theorem C2_set_verify (dev : Device) (param value : String) (enclose : Bool) :
    ((NeXOS.set dev param value enclose).1 = Except.ok () ↔
      (NeXOS.query dev (param ++ "?")).1 = value) ∧
    ((NeXOS.set dev param value enclose).1 = Except.error NxError.verificationMismatch ↔
      (NeXOS.query dev (param ++ "?")).1 ≠ value) ∧
    (NeXOS.set dev param value enclose).2 =
      ((if enclose then
          param ++ " " ++ String.singleton quoteChar ++ value ++ String.singleton quoteChar
        else param ++ " " ++ value) ++ crlf) :: (NeXOS.query dev (param ++ "?")).2 := by
  by_cases h : (NeXOS.query dev (param ++ "?")).1 = value <;>
    simp [NeXOS.set, h]

/-- Witness for C2 at a concrete device and parameter. -/
theorem C2_set_verify_witness :
    ((NeXOS.set devEcho "CONFigure:ACQuire:SRATe" "100000" false).1 = Except.ok () ↔
      (NeXOS.query devEcho ("CONFigure:ACQuire:SRATe" ++ "?")).1 = "100000") :=
  (C2_set_verify devEcho "CONFigure:ACQuire:SRATe" "100000" false).1

/-- Claim C4: a sample rate outside the enumerated set fails with
InvalidParameter and an empty trace (zero frames sent), and likewise a
channel outside 1 and 2. -/
theorem C4_invalid_rejected (dev : Device) (srate ch : Int)
    (h1 : srate ∉ validSrates) (h2 : ch ∉ ([1, 2] : List Int)) :
    NeXOS.set_srate dev srate = (Except.error NxError.invalidParameter, []) ∧
    NeXOS.set_channel dev ch = (Except.error NxError.invalidParameter, []) := by
  unfold NeXOS.set_srate NeXOS.set_channel
  rw [if_neg h1, if_neg h2]
  exact ⟨rfl, rfl⟩

/-- Witness for C4 at the spec's example rate 12345 and channel 3. -/
theorem C4_invalid_rejected_witness :
    NeXOS.set_srate devNull 12345 = (Except.error NxError.invalidParameter, []) ∧
    NeXOS.set_channel devNull 3 = (Except.error NxError.invalidParameter, []) :=
  C4_invalid_rejected devNull 12345 3 (by decide) (by decide)

/-- Claim C1 counterexample: the claim says the gap is computed modulo
65536, so that previous=65535, current=2 gives gap 3 and a loss report;
the code's `seqGap = newSeqNum - oldSeqNum` is a plain subtraction, so
that pair gives -65533 (not the claimed `(2 - 65535) mod 65536`) and no
loss is reported at all. Moreover at (previous=10, current=13) the code
logs the raw gap 3, not the claimed `gap - 1 = 2`. -/
theorem C1_counterexample :
    seqGap (NeXOS.receivePacket
        { initRtp with newSeqNum := 65535, oldSeqNum := 65534 } [128, 96, 0, 2]).1 = -65533 ∧
    seqGap (NeXOS.receivePacket
        { initRtp with newSeqNum := 65535, oldSeqNum := 65534 } [128, 96, 0, 2]).1 ≠
      (2 - 65535 : Int) % 65536 ∧
    lostReport (NeXOS.receivePacket
        { initRtp with newSeqNum := 65535, oldSeqNum := 65534 } [128, 96, 0, 2]).1 = none ∧
    lostReport (NeXOS.receivePacket
        { initRtp with newSeqNum := 10, oldSeqNum := 9 } [128, 96, 0, 13]).1 = some 3 := by
  decide

/-- Claim C1 (amended): after a packet following a real previous packet,
the gap is the plain (non-modular) difference between the wire sequence
number and the previous one; a loss message — carrying the raw gap, not
gap − 1 — is logged exactly when the gap exceeds 1; and the capture
loop always runs to its packet target regardless of gaps (so across the
16-bit wraparound the gap is negative and no loss is reported). -/
theorem C1_amended (st : RtpState) (raw : List Nat) (packets : Nat → List Nat) (i n : Nat)
    (h : st.newSeqNum ≠ -1) :
    seqGap (NeXOS.receivePacket st raw).1 =
      (bytes_to_int ((raw.drop 2).take 2) : Int) - st.newSeqNum ∧
    (lostReport (NeXOS.receivePacket st raw).1 = none ↔
      seqGap (NeXOS.receivePacket st raw).1 ≤ 1) ∧
    ((writeLoop packets st i n).2.1).length = n := by
  refine ⟨?_, ?_, writeLoop_payload_length packets n i st⟩
  · simp [NeXOS.receivePacket, seqGap, h]
  · by_cases hg : seqGap (NeXOS.receivePacket st raw).1 > 1
    · simp only [lostReport, if_pos hg]
      constructor
      · intro hc
        exact absurd hc (by simp)
      · intro hle
        omega
    · simp only [lostReport, if_neg hg]
      constructor
      · intro _
        omega
      · intro _
        trivial

/-- Witness for C1 (amended) at previous=10, current=13. -/
theorem C1_amended_witness :
    seqGap (NeXOS.receivePacket
        { initRtp with newSeqNum := 10, oldSeqNum := 9 } [128, 96, 0, 13]).1 =
      (bytes_to_int ((([128, 96, 0, 13] : List Nat).drop 2).take 2) : Int) - 10 := by
  exact (C1_amended { initRtp with newSeqNum := 10, oldSeqNum := 9 } [128, 96, 0, 13]
    (fun _ => []) 0 2 (by decide)).1

/-- Claim C3: the bounded capture writes exactly
`floor(seconds * srate / 512)` packet payloads before finalizing; in
particular seconds=10, srate=100000 targets exactly 1953 payloads. -/
theorem C3_packet_count :
    (∀ (seconds srate : Nat) (st : RtpState) (packets : Nat → List Nat),
      ((write_wav_payloads seconds srate st packets).2.1).length = seconds * srate / 512) ∧
    npackets 10 100000 = 1953 := by
  constructor
  · intro seconds srate st packets
    simpa [write_wav_payloads, npackets, samplesPerPacket] using
      writeLoop_payload_length packets (npackets seconds srate) 0 st
  · rfl

/-- Claim C9: on the very first packet after construction (the previous
sequence number still at the -1 sentinel), `receivePacket` rewrites the
previous number to the new one minus 1, so the gap is exactly 1 and no
loss is reported, whatever the packet's sequence number. -/
theorem C9_first_packet (raw : List Nat) :
    (NeXOS.receivePacket initRtp raw).1.oldSeqNum =
      (NeXOS.receivePacket initRtp raw).1.newSeqNum - 1 ∧
    seqGap (NeXOS.receivePacket initRtp raw).1 = 1 ∧
    lostReport (NeXOS.receivePacket initRtp raw).1 = none := by
  have hg : seqGap (NeXOS.receivePacket initRtp raw).1 = 1 := by
    simp [NeXOS.receivePacket, initRtp, seqGap]
  refine ⟨?_, hg, ?_⟩
  · simp [NeXOS.receivePacket, initRtp]
  · simp [lostReport, hg]

/-- Claim C5 counterexample: after `init_udp` on a fresh instance the
UDP medium is active, yet `init_serial` succeeds (opening the serial
port alongside the UDP socket) instead of failing with a configuration
error; `init_udp` itself never raises one either. -/
theorem C5_counterexample :
    NeXOS.init_udp initTransport =
      { interface := some "udp", serial := false, socket := true } ∧
    NeXOS.init_serial (NeXOS.init_udp initTransport) =
      Except.ok { interface := some "udp", serial := true, socket := true } := by
  decide

/-- Claim C5 (amended): only `init_serial` guards, and only against an
existing serial handle — it fails with the configuration `ValueError`
exactly when serial is already configured, whatever medium is active;
`init_udp` performs no check: it always proceeds (replacing any
existing UDP command socket) and only assigns the default interface
when none is selected yet. -/
theorem C5_amended :
    (∀ st : TransportState,
      NeXOS.init_serial st = Except.error NxError.configurationError ↔ st.serial = true) ∧
    (∀ st : TransportState,
      (NeXOS.init_udp st).socket = true ∧
      (NeXOS.init_udp st).interface =
        (if st.interface = none then some "udp" else st.interface)) := by
  constructor
  · intro st
    by_cases h : st.serial <;> simp [NeXOS.init_serial, h]
  · intro st
    by_cases h : st.interface = none <;> simp [NeXOS.init_udp, h]

/-- Witness for C5 (amended) at the freshly constructed instance. -/
theorem C5_amended_witness :
    (NeXOS.init_serial initTransport = Except.error NxError.configurationError ↔
      initTransport.serial = true) :=
  C5_amended.1 initTransport

/-- Claim C6 counterexample: calling `open_stream` while the stream
socket is already bound and flagged open completes normally (binding a
fresh socket and leaving the flag set) — no AlreadyOpen error exists in
the method. -/
theorem C6_counterexample :
    NeXOS.open_stream { stream_socket := true, open_stream_port := true } =
      { stream_socket := true, open_stream_port := true } := by
  rfl

/-- Claim C6 (amended): `open_stream` has no already-open guard — it
unconditionally binds a fresh socket and sets the flag from any state;
reopening is avoided only inside `write_wav`, which calls `open_stream`
exactly when `open_stream_port` is False and otherwise leaves the
stream state untouched. -/
theorem C6_amended :
    (∀ st : StreamState,
      NeXOS.open_stream st = { stream_socket := true, open_stream_port := true }) ∧
    (∀ b : Bool,
      write_wav_stream { stream_socket := b, open_stream_port := true } =
        { stream_socket := b, open_stream_port := true }) ∧
    (∀ b : Bool,
      write_wav_stream { stream_socket := b, open_stream_port := false } =
        { stream_socket := true, open_stream_port := true }) :=
  ⟨fun _ => rfl, fun _ => rfl, fun _ => rfl⟩

/-- Claim C7 counterexample: refreshing the configuration against a
device whose sample-rate answer fails the `int(...)` parse raises
partway, and the cached fields written before the failure (`self.ch`,
`self.gain_status`) are left changed from their pre-call values — the
cache is partially updated. -/
theorem C7_counterexample :
    (NeXOS.get_config devBadSrate initCache).2.1 = Except.error NxError.parseError ∧
    (NeXOS.get_config devBadSrate initCache).1.ch = 1 ∧
    initCache.ch = -1 ∧
    (NeXOS.get_config devBadSrate initCache).1.gain_status = "1" ∧
    initCache.gain_status = "-1" := by
  decide

/-- Claim C7 (amended): the `config_info` snapshot dict is assigned only
once, at the very end of `get_config`, so on any failure it is left
exactly as it was (and on success it becomes the full freshly read
configuration); the scalar cached fields, by contrast, are mutated
incrementally and may be left partially updated by a failure. -/
theorem C7_amended (dev : Device) (st : ConfigCache) (e : NxError)
    (h : (NeXOS.get_config dev st).2.1 = Except.error e) :
    (NeXOS.get_config dev st).1.config_info = st.config_info := by
  unfold NeXOS.get_config at h ⊢
  rcases hc : NeXOS.get_channel dev with ⟨rc, tc⟩
  cases rc with
  | error e2 => rfl
  | ok ch =>
    rcases hs : NeXOS.get_srate dev with ⟨rs, ts⟩
    cases rs with
    | error e2 =>
      by_cases h1 : ch = 1 <;> simp [h1]
    | ok sr =>
      rw [hc, hs] at h
      simp at h

/-- Witness for C7 (amended) at the partially failing device. -/
theorem C7_amended_witness :
    (NeXOS.get_config devBadSrate initCache).1.config_info = initCache.config_info :=
  C7_amended devBadSrate initCache NxError.parseError (by decide)

/-- Claim C8: whenever the first two steps do not raise,
`start_streaming` talks to the device exactly as the sequence (set the
receiver port to `streaming_port`) then (refresh the configuration)
then (set `CONFigure:STATe` to RUN_CONTINUOUS), in that order, its
result being that of the final run-state set and its cache that of the
refresh; and `stop_streaming` sends exactly the STOP set frame and its
verification query, nothing else. -/
theorem C8_streaming_steps (dev : Device) (st : ConfigCache) (cfg : Config)
    (h1 : (NeXOS.set_recv_port dev streaming_port).1 = Except.ok ())
    (h2 : (NeXOS.get_config dev st).2.1 = Except.ok cfg) :
    (NeXOS.start_streaming dev st).2.2 =
      (NeXOS.set_recv_port dev streaming_port).2 ++ (NeXOS.get_config dev st).2.2 ++
        (NeXOS.set dev "CONFigure:STATe" "RUN_CONTINUOUS" false).2 ∧
    (NeXOS.start_streaming dev st).2.1 =
      (NeXOS.set dev "CONFigure:STATe" "RUN_CONTINUOUS" false).1 ∧
    (NeXOS.start_streaming dev st).1 = (NeXOS.get_config dev st).1 ∧
    (NeXOS.stop_streaming dev).2 =
      [("CONFigure:STATe STOP" ++ crlf), ("CONFigure:STATe?" ++ crlf)] := by
  unfold NeXOS.start_streaming
  simp only [h1, h2]
  refine ⟨trivial, trivial, trivial, ?_⟩
  rfl

/-- Witness for C8 at a faithfully echoing device. -/
theorem C8_streaming_steps_witness :
    (NeXOS.start_streaming devEcho initCache).2.2 =
      (NeXOS.set_recv_port devEcho streaming_port).2 ++ (NeXOS.get_config devEcho initCache).2.2 ++
        (NeXOS.set devEcho "CONFigure:STATe" "RUN_CONTINUOUS" false).2 :=
  (C8_streaming_steps devEcho initCache
    { name := "NeXOS-A2", version := "1.0", channel := 1, srate := 100000,
      gain := "1", equalizer := "1" }
    (by decide) (by decide)).1

/-- Claim C10: for every device response the channel query parses as an
integer, `get_channel` returns 1 exactly when that integer is 1, and 2
for every other value; so its result is always in the pair 1, 2. -/
theorem C10_get_channel (dev : Device) (r : Int)
    (h : pyInt (NeXOS.query dev "INPut1:STATe?").1 = some r) :
    (NeXOS.get_channel dev).1 = Except.ok (if r = 1 then (1 : Int) else 2) ∧
    ((NeXOS.get_channel dev).1 = Except.ok (1 : Int) ∨
      (NeXOS.get_channel dev).1 = Except.ok (2 : Int)) := by
  unfold NeXOS.get_channel
  simp only [h]
  by_cases h1 : r = 1 <;> simp [h1]

/-- Witness for C10 at a device answering "2". -/
theorem C10_get_channel_witness :
    ((NeXOS.get_channel devTwo).1 = Except.ok (1 : Int) ∨
      (NeXOS.get_channel devTwo).1 = Except.ok (2 : Int)) :=
  (C10_get_channel devTwo 2 (by decide)).2

end A2
